import Mathlib

/-!
Verification of the IoT gateway protocol and server logic
(`protocol.py`, `server.py`, `config.py`, `database.py`).

Bytes are modelled as `Nat` values; where a claim needs them bounded the
theorem carries the hypothesis `b < 256` (Python's `bytes` guarantees it).
Python 32-bit floats are modelled exactly (see `F32Val`); the external
sinks (sqlite, datetime formatting, the GUI callbacks, websocket sends)
are modelled as parameters / recorded effects.
-/

namespace IotSys

/-- Protocol frame-header constant from `config.py` (`PROTOCOL_HEADER = 0xAA55`). -/
def PROTOCOL_HEADER : Nat := 0xAA55

/-- Protocol version constant from `config.py` (`PROTOCOL_VERSION = 0x12`). -/
def PROTOCOL_VERSION : Nat := 0x12

/-- Heartbeat command code from `config.py` (`CMD_HEARTBEAT = 0x01`). -/
def CMD_HEARTBEAT : Nat := 0x01

/-- Sensor-report command code from `config.py` (`CMD_SENSOR_DATA = 0x10`). -/
def CMD_SENSOR_DATA : Nat := 0x10

/-- Little-endian 16-bit value of two bytes, as read by `struct.unpack("<H", ..)`. -/
def le16 (b0 b1 : Nat) : Nat := b0 + 256 * b1

/-- Little-endian 32-bit value of four bytes, as read by `struct.unpack("<I", ..)`. -/
def le32 (b0 b1 b2 b3 : Nat) : Nat :=
  b0 + 256 * b1 + 65536 * b2 + 16777216 * b3

/-- Little-endian 64-bit value of eight bytes, as read by `struct.unpack("<Q", ..)`. -/
def le64 (b0 b1 b2 b3 b4 b5 b6 b7 : Nat) : Nat :=
  b0 + 256 * b1 + 65536 * b2 + 16777216 * b3 +
    4294967296 * b4 + 1099511627776 * b5 + 281474976710656 * b6 +
    72057594037927936 * b7

/-- Bytes of `struct.pack("<H", v)` (valid for `v < 2^16`). -/
def enc16 (v : Nat) : List Nat := [v % 256, v / 256 % 256]

/-- Bytes of `struct.pack("<I", v)` (valid for `v < 2^32`). -/
def enc32 (v : Nat) : List Nat :=
  [v % 256, v / 256 % 256, v / 65536 % 256, v / 16777216 % 256]

/-- Upper-case hexadecimal digit character, used to model `bytes.hex().upper()`. -/
def hexDigitU (n : Nat) : Char :=
  if n < 10 then Char.ofNat (48 + n) else Char.ofNat (55 + n)

/-- Two upper-case hex characters of one byte. -/
def byteHex (b : Nat) : List Char := [hexDigitU (b / 16), hexDigitU (b % 16)]

/-- Model of Python `data.hex().upper()` on a byte string. -/
def bytesHexUpper (data : List Nat) : String :=
  String.mk ((data.map byteHex).flatten)

/-- Lower-case hexadecimal digit character, used to model Python `hex(n)`. -/
def hexDigitL (n : Nat) : Char :=
  if n < 10 then Char.ofNat (48 + n) else Char.ofNat (87 + n)

/-- Hex digit characters of `n`, most significant first (no leading zeros). -/
def natToHexDigits (n : Nat) : List Char :=
  if n < 16 then [hexDigitL n]
  else natToHexDigits (n / 16) ++ [hexDigitL (n % 16)]
decreasing_by
  exact Nat.div_lt_self (by omega) (by omega)

/-- Model of Python `hex(n)` for a nonnegative `n`: `"0x"` then lower-case digits. -/
def pyHex (n : Nat) : String := "0x" ++ String.mk (natToHexDigits n)

/-- One inner-loop round of `IotProtocol.calc_crc`: shift the register right one
bit, and if the bit shifted out was 1, XOR with the polynomial 0xA001. -/
def crcRound (crc : Nat) : Nat :=
  if crc &&& 1 ≠ 0 then (crc >>> 1) ^^^ 0xA001 else crc >>> 1

/-- Per-byte step of `IotProtocol.calc_crc`: XOR the byte into the register, then
run the inner loop (`for _ in range(8)`) eight times. -/
def crcByte (crc b : Nat) : Nat := crcRound^[8] (crc ^^^ b)

/-- `IotProtocol.calc_crc` from `protocol.py`: CRC-16 starting from register
0xFFFF, folding `crcByte` over the input bytes. -/
def calc_crc (data : List Nat) : Nat := data.foldl crcByte 0xFFFF

/-- Result of `struct.unpack("<HBBBIH", bs)`: requires a buffer of exactly 11
bytes (otherwise `struct.error`, modelled as `none`), and reads
header(u16 LE), version(u8), command(u8), sequence(u8), deviceId(u32 LE),
payloadLength(u16 LE). -/
def unpackHBBBIH (bs : List Nat) : Option (Nat × Nat × Nat × Nat × Nat × Nat) :=
  if bs.length = 11 then
    some (le16 (bs.getD 0 0) (bs.getD 1 0), bs.getD 2 0, bs.getD 3 0,
          bs.getD 4 0,
          le32 (bs.getD 5 0) (bs.getD 6 0) (bs.getD 7 0) (bs.getD 8 0),
          le16 (bs.getD 9 0) (bs.getD 10 0))
  else none

/-- Result of `struct.unpack("<H", bs)`: requires a buffer of exactly 2 bytes. -/
def unpackH (bs : List Nat) : Option Nat :=
  if bs.length = 2 then some (le16 (bs.getD 0 0) (bs.getD 1 0)) else none

/-- The second component of `IotProtocol.parse_packet`'s return value.  Each
constructor stands for one of the source's message strings, carrying the
values interpolated into the f-string:
`ok` = `"OK"`, `tooShort` = `"Length too short"`,
`structError` = `"Struct unpack error"`,
`invalidHeader h` = `f"Invalid Header: \x7bhex(head)\x7d"`,
`lengthMismatch r e` = the length-mismatch message,
`crcError recv calc` = the CRC-error message.
`crcUnpackRaise` models the `struct.error` the second (uncaught)
`struct.unpack("<H", ...)` would raise; it is unreachable. -/
inductive ParseMsg where
  | ok
  | tooShort
  | structError
  | invalidHeader (head : Nat)
  | lengthMismatch (real expected : Nat)
  | crcError (recv calcv : Nat)
  | crcUnpackRaise
deriving DecidableEq, Repr

/-- The dictionary returned by `IotProtocol.parse_packet` on success:
`cmd`, `seq`, `dev_id`, `payload` (raw bytes) and `raw_hex`
(`data.hex().upper()`). -/
structure Packet where
  cmd : Nat
  seq : Nat
  dev_id : Nat
  payload : List Nat
  raw_hex : String
deriving DecidableEq, Repr

/-- `IotProtocol.parse_packet` from `protocol.py`: length guard (< 13 bytes),
fixed 11-byte header unpack, header-constant check, total-length check,
payload extraction, trailing-checksum extraction, CRC check over all bytes
except the trailing two, and on success the packet dictionary with `"OK"`. -/
def parse_packet (data : List Nat) : Option Packet × ParseMsg :=
  if data.length < 13 then (none, .tooShort)
  else
    match unpackHBBBIH (data.take 11) with
    | none => (none, .structError)
    | some (head, _ver, cmd, seq, dev_id, pay_len) =>
      if head ≠ PROTOCOL_HEADER then (none, .invalidHeader head)
      else
        let expected_len := 11 + pay_len + 2
        if data.length ≠ expected_len then
          (none, .lengthMismatch data.length expected_len)
        else
          let payload := (data.drop 11).take pay_len
          match unpackH (data.drop (11 + pay_len)) with
          | none => (none, .crcUnpackRaise)
          | some recv_crc =>
            let c := calc_crc (data.take (data.length - 2))
            if recv_crc ≠ c then (none, .crcError recv_crc c)
            else (some ⟨cmd, seq, dev_id, payload, bytesHexUpper data⟩, .ok)

/-- Value of an IEEE-754 binary32 number: a finite value is carried exactly as
a rational; infinities and NaNs are kept symbolic.  (Python represents the
unpacked value as a binary64 float, which holds every binary32 value
exactly, so the rational is the exact value Python computes with.) -/
inductive F32Val where
  | finite : ℚ → F32Val
  | inf : Bool → F32Val
  | nan : F32Val
deriving DecidableEq, Repr

/-- Decode of an IEEE-754 binary32 bit pattern (`bits < 2^32`), the meaning of
`struct.unpack("<f", ..)` applied to the 4 bytes whose LE value is `bits`. -/
def decodeF32 (bits : Nat) : F32Val :=
  let sign : Nat := bits / 2 ^ 31
  let ex : Nat := bits / 2 ^ 23 % 2 ^ 8
  let mant : Nat := bits % 2 ^ 23
  if ex = 255 then
    if mant = 0 then .inf (decide (sign = 1)) else .nan
  else
    let mag : ℚ :=
      if ex = 0 then (mant : ℚ) * (2 : ℚ) ^ (-(149 : ℤ))
      else ((2 ^ 23 + mant : Nat) : ℚ) * (2 : ℚ) ^ ((ex : ℤ) - 150)
    .finite (if sign = 1 then -mag else mag)

/-- Round a rational to the nearest integer, ties to even — the rounding rule
of Python's `round` builtin. -/
def rhe (q : ℚ) : ℤ :=
  let f := ⌊q⌋
  let r := q - (f : ℚ)
  if r < 1 / 2 then f
  else if 1 / 2 < r then f + 1
  else if f % 2 = 0 then f else f + 1

/-- Model of Python `round(x, 1)` on a finite float value: the closest multiple
of 1/10, ties to even.  (The re-quantization of that decimal back to a
binary64 float is omitted; values stay exact rationals.) -/
def roundQ1 (q : ℚ) : ℚ := (rhe (10 * q) : ℚ) / 10

/-- Model of Python `round(x, 1)` on a float: rounds finite values, and leaves
infinities and NaN unchanged (as Python's `round` does). -/
def roundF1 : F32Val → F32Val
  | .finite q => .finite (roundQ1 q)
  | v => v

/-- The dictionary returned by `IotProtocol.decode_sensor_payload` on success:
temperature and humidity (rounded to 1 decimal), light, device timestamp. -/
structure SensorData where
  temp : F32Val
  hum : F32Val
  light : Nat
  ts : Nat
deriving DecidableEq, Repr

/-- `IotProtocol.decode_sensor_payload` from `protocol.py`: `None` unless the
payload is exactly 20 bytes; otherwise `struct.unpack("<ffIQ", payload)`
giving temperature(f32 LE), humidity(f32 LE), light(u32 LE),
timestamp(u64 LE), with temperature and humidity rounded to 1 decimal.
(The `except struct.error` branch is unreachable after the length check
and is modelled by the final catch-all `none`.) -/
def decode_sensor_payload (payload : List Nat) : Option SensorData :=
  if payload.length ≠ 20 then none
  else
    match payload with
    | [b0, b1, b2, b3, b4, b5, b6, b7, b8, b9, b10, b11,
       b12, b13, b14, b15, b16, b17, b18, b19] =>
      some ⟨roundF1 (decodeF32 (le32 b0 b1 b2 b3)),
            roundF1 (decodeF32 (le32 b4 b5 b6 b7)),
            le32 b8 b9 b10 b11,
            le64 b12 b13 b14 b15 b16 b17 b18 b19⟩
    | _ => none

/-- `IotProtocol.build_control_packet` from `protocol.py`: command 0x80,
sequence 0x01, payload one byte (1 if the actuator is to be on, else 0),
the packed 11-byte header, then payload, then the CRC-16 over header and
payload appended little-endian.  (Valid for `dev_id < 2^32`, the range
`struct.pack("<I", ..)` accepts.) -/
def build_control_packet (dev_id : Nat) (led_status : Bool) : List Nat :=
  let cmd := 0x80
  let seq := 0x01
  let payload : List Nat := [if led_status then 1 else 0]
  let length := payload.length
  let header :=
    enc16 PROTOCOL_HEADER ++ [PROTOCOL_VERSION, cmd, seq] ++ enc32 dev_id ++
      enc16 length
  let packet := header ++ payload
  let crc_val := calc_crc packet
  packet ++ enc16 crc_val

/-- Log lines emitted by `IoTServer.process_data`, one constructor per
f-string, carrying the interpolated values:
`heartbeat d` = `f"[心跳] Dev:\x7bdev_id\x7d"`,
`dbError e` = `f"DB错误: \x7berror\x7d"` (the sink's error, `none` = Python
`None`), `report ..` = the `"[上报]"` line, `payloadFail n` = the
payload-parse-failure line with the payload length. -/
inductive LogMsg where
  | heartbeat (dev_id : String)
  | dbError (error : Option String)
  | report (temp hum : F32Val) (light : Nat) (timeStr : String)
  | payloadFail (len : Nat)
deriving DecidableEq, Repr

/-- Observable effects of one `IoTServer.process_data` call: the log lines, the
calls made to the persistence sink `save_sensor_data` (with the arguments of
the 4-parameter call that `database.py` actually accepts:
`(dev_id, temperature, humidity, device_time)`), and the calls made to the
display callback `(temp, hum, light)`. -/
structure Effects where
  logs : List LogMsg
  dbCalls : List (String × F32Val × F32Val × String)
  displayCalls : List (F32Val × F32Val × Nat)
deriving DecidableEq, Repr

/-- `IoTServer.process_data` from `server.py`, as a pure function over its
observable effects.  External collaborators are parameters: `tsToStr`
models `datetime.datetime.fromtimestamp(ts / 1000.0).strftime(..)` (assumed
in range — an out-of-range timestamp raises before the sink is called),
`dbResult` is the `(success, error)` pair returned by the sqlite sink
`save_sensor_data`, and `hasDisplay` is whether `update_display_callback`
was provided.  The source's `try/except TypeError` around the 5-argument
sink call always falls back to the 4-argument call, because `database.py`'s
`save_sensor_data` takes 4 parameters; the recorded `dbCalls` entry is that
4-argument call.  The source's `if/elif` has no `else`: a command that is
neither heartbeat nor sensor-report produces no effect at all. -/
def process_data (tsToStr : Nat → String) (dbResult : Bool × Option String)
    (hasDisplay : Bool) (data : Packet) : Effects :=
  let cmd := data.cmd
  let dev_id := pyHex data.dev_id
  if cmd = CMD_HEARTBEAT then
    { logs := [.heartbeat dev_id], dbCalls := [], displayCalls := [] }
  else if cmd = CMD_SENSOR_DATA then
    match decode_sensor_payload data.payload with
    | some sd =>
      let device_time_str := tsToStr sd.ts
      let success := dbResult.1
      let dbLogs := if success then [] else [LogMsg.dbError dbResult.2]
      { logs := dbLogs ++ [.report sd.temp sd.hum sd.light device_time_str],
        dbCalls := [(dev_id, sd.temp, sd.hum, device_time_str)],
        displayCalls := if hasDisplay then [(sd.temp, sd.hum, sd.light)] else [] }
    | none =>
      { logs := [.payloadFail data.payload.length], dbCalls := [], displayCalls := [] }
  else
    { logs := [], dbCalls := [], displayCalls := [] }

/-- Log lines emitted by `IoTServer.broadcast_command`:
`noDevices` = the `"警告: 无设备连接"` warning, `sent led ws` = the
`"[下发]"` line for one session, `sendFail ws` = the `"发送失败"` line. -/
inductive BLog where
  | noDevices
  | sent (led : Bool) (ws : Nat)
  | sendFail (ws : Nat)
deriving DecidableEq, Repr

/-- Observable effects of one `IoTServer.broadcast_command` call: the log
lines, and the frames actually delivered, as `(session, bytes)` pairs. -/
structure BroadcastEffects where
  logs : List BLog
  sends : List (Nat × List Nat)
deriving DecidableEq, Repr

/-- `IoTServer.broadcast_command` from `server.py`, as a pure function over its
observable effects.  Sessions are identified by opaque `Nat` handles;
`clients` is the iteration order of `self.connected_clients`; `sendOk ws`
models whether `ws.send(packet)` succeeds (an exception is caught
per-session and logged).  With an empty registry it only logs the warning;
otherwise it builds the control packet once and attempts to send the same
bytes to every session in order. -/
def broadcast_command (sendOk : Nat → Bool) (clients : List Nat)
    (dev_id : Nat) (led_status : Bool) : BroadcastEffects :=
  if clients.isEmpty then { logs := [.noDevices], sends := [] }
  else
    let packet := build_control_packet dev_id led_status
    { logs := clients.map
        (fun ws => if sendOk ws then BLog.sent led_status ws else BLog.sendFail ws),
      sends := (clients.filter sendOk).map (fun ws => (ws, packet)) }

/-- Modelled from the spec (§4.1), for the refinement claim about the CRC:
"initial register 0xFFFF; for each input byte: XOR byte into the low 8 bits
of the register; repeat 8 times: if the low bit of the register is 1, shift
right one bit then XOR with 0xA001; otherwise shift right one bit without
XOR", with no final XOR.  "XOR into the low 8 bits" is written literally:
the high bits of the register are kept and the byte's low 8 bits are XORed
into the register's low 8 bits. -/
def spec_xor_low8 (c b : Nat) : Nat :=
  (c >>> 8) <<< 8 ||| ((c &&& 0xFF) ^^^ (b &&& 0xFF))

/-- Modelled from the spec (§4.1): the inner loop, `n` rounds of
shift-right-and-conditionally-XOR-0xA001. -/
def spec_rounds : Nat → Nat → Nat
  | 0, c => c
  | n + 1, c =>
    spec_rounds n (if c &&& 1 = 1 then (c >>> 1) ^^^ 0xA001 else c >>> 1)

/-- Modelled from the spec (§4.1): the whole CRC-16/Modbus computation. -/
def crc16_modbus_spec (data : List Nat) : Nat :=
  data.foldl (fun c b => spec_rounds 8 (spec_xor_low8 c b)) 0xFFFF

/-! Helper lemmas. -/

lemma crcRound_lt (c : Nat) (h : c < 2 ^ 16) : crcRound c < 2 ^ 16 := by
  unfold crcRound
  have h1 : c >>> 1 < 2 ^ 16 := by
    rw [Nat.shiftRight_eq_div_pow]; omega
  split
  · exact Nat.xor_lt_two_pow h1 (by norm_num)
  · exact h1

lemma crcRound_iter_lt (n c : Nat) (h : c < 2 ^ 16) : crcRound^[n] c < 2 ^ 16 := by
  induction n with
  | zero => simpa using h
  | succ n ih => rw [Function.iterate_succ_apply']; exact crcRound_lt _ ih

lemma crcByte_lt (c b : Nat) (hc : c < 2 ^ 16) (hb : b < 256) : crcByte c b < 2 ^ 16 :=
  crcRound_iter_lt 8 _ (Nat.xor_lt_two_pow hc (by omega))

lemma foldl_crc_lt (l : List Nat) : ∀ c, c < 2 ^ 16 → (∀ b ∈ l, b < 256) →
    l.foldl crcByte c < 2 ^ 16 := by
  induction l with
  | nil => intro c hc _; simpa using hc
  | cons a l ih =>
    intro c hc hb
    simp only [List.foldl_cons]
    exact ih _ (crcByte_lt _ _ hc (hb a (by simp))) (fun x hx => hb x (by simp [hx]))

lemma calc_crc_lt (data : List Nat) (h : ∀ b ∈ data, b < 256) :
    calc_crc data < 2 ^ 16 :=
  foldl_crc_lt data 0xFFFF (by norm_num) h

lemma build_eq (d : Nat) (b : Bool) :
    build_control_packet d b =
      [85, 170, 18, 128, 1, d % 256, d / 256 % 256, d / 65536 % 256, d / 16777216 % 256,
       1, 0, if b then 1 else 0] ++
        enc16 (calc_crc [85, 170, 18, 128, 1, d % 256, d / 256 % 256, d / 65536 % 256,
          d / 16777216 % 256, 1, 0, if b then 1 else 0]) := by
  simp [build_control_packet, enc16, enc32, PROTOCOL_HEADER, PROTOCOL_VERSION]

lemma parse_goodFrame (a5 a6 a7 a8 pb x y : Nat)
    (hcrc : le16 x y = calc_crc [85, 170, 18, 128, 1, a5, a6, a7, a8, 1, 0, pb]) :
    parse_packet [85, 170, 18, 128, 1, a5, a6, a7, a8, 1, 0, pb, x, y] =
      (some ⟨128, 1, le32 a5 a6 a7 a8, [pb],
        bytesHexUpper [85, 170, 18, 128, 1, a5, a6, a7, a8, 1, 0, pb, x, y]⟩, .ok) := by
  rw [le16] at hcrc
  unfold parse_packet
  simp only [List.length_cons, List.length_nil]
  norm_num [unpackHBBBIH, unpackH, le16, List.getD, List.take_succ_cons, List.drop_succ_cons,
    PROTOCOL_HEADER, hcrc]

lemma spec_xor_low8_eq (c b : Nat) (hb : b < 256) : spec_xor_low8 c b = c ^^^ b := by
  unfold spec_xor_low8
  apply Nat.eq_of_testBit_eq
  intro i
  have h255 : (255 : Nat) = 2 ^ 8 - 1 := by norm_num
  simp only [Nat.testBit_or, Nat.testBit_xor, Nat.testBit_and, Nat.testBit_shiftLeft,
    Nat.testBit_shiftRight, h255, Nat.testBit_two_pow_sub_one]
  rcases Nat.lt_or_ge i 8 with hi | hi
  · have : ¬ (8 ≤ i) := by omega
    simp [hi, this]
  · have hpow : (2 : Nat) ^ 8 ≤ 2 ^ i := Nat.pow_le_pow_right (by norm_num) hi
    have hbi : b.testBit i = false :=
      Nat.testBit_lt_two_pow (lt_of_lt_of_le hb hpow)
    have h8 : 8 + (i - 8) = i := by omega
    simp [hi, Nat.not_lt.mpr hi, hbi, h8, Nat.le_of_lt]

lemma spec_round_eq (c : Nat) :
    (if c &&& 1 = 1 then (c >>> 1) ^^^ 0xA001 else c >>> 1) = crcRound c := by
  unfold crcRound
  rcases Nat.eq_zero_or_pos (c &&& 1) with h | h
  · simp [h]
  · have h1 : c &&& 1 = 1 := by
      have := Nat.and_one_is_mod c
      omega
    simp [h1]

lemma spec_rounds_eq_iter (n c : Nat) : spec_rounds n c = crcRound^[n] c := by
  induction n generalizing c with
  | zero => rfl
  | succ n ih =>
    rw [Function.iterate_succ_apply, ← spec_round_eq]
    exact ih _

lemma foldl_crc_spec_eq (l : List Nat) : ∀ c, (∀ b ∈ l, b < 256) →
    l.foldl crcByte c = l.foldl (fun c b => spec_rounds 8 (spec_xor_low8 c b)) c := by
  induction l with
  | nil => intro c _; rfl
  | cons a l ih =>
    intro c hb
    simp only [List.foldl_cons]
    rw [spec_rounds_eq_iter, spec_xor_low8_eq _ _ (hb a (by simp)),
      show crcRound^[8] (c ^^^ a) = crcByte c a from rfl]
    exact ih _ (fun x hx => hb x (by simp [hx]))

lemma crc_spec_eq (data : List Nat) (h : ∀ b ∈ data, b < 256) :
    calc_crc data = crc16_modbus_spec data :=
  foldl_crc_spec_eq data 0xFFFF h

/-! Claim theorems. -/

/-- C1: Round-trip of the control frame — for every `deviceId < 2^32` and every
boolean, decoding the bytes built by `build_control_packet` succeeds
(checksum check included) and reproduces command 0x80, sequence 0x01, the
same device id, and the single-byte payload `1` if on else `0`. -/
theorem control_packet_roundtrip (d : Nat) (hd : d < 2 ^ 32) (b : Bool) :
    parse_packet (build_control_packet d b) =
      (some ⟨0x80, 0x01, d, [if b then 1 else 0],
        bytesHexUpper (build_control_packet d b)⟩, ParseMsg.ok) := by
  have hpb : (if b then 1 else 0) < 256 := by cases b <;> norm_num
  have hbytes : ∀ x ∈ [85, 170, 18, 128, 1, d % 256, d / 256 % 256, d / 65536 % 256,
      d / 16777216 % 256, 1, 0, if b then 1 else 0], x < 256 := by
    intro x hx
    fin_cases hx <;> omega
  have hC := calc_crc_lt _ hbytes
  have hcrc : le16 (calc_crc [85, 170, 18, 128, 1, d % 256, d / 256 % 256, d / 65536 % 256,
        d / 16777216 % 256, 1, 0, if b then 1 else 0] % 256)
      (calc_crc [85, 170, 18, 128, 1, d % 256, d / 256 % 256, d / 65536 % 256,
        d / 16777216 % 256, 1, 0, if b then 1 else 0] / 256 % 256) =
      calc_crc [85, 170, 18, 128, 1, d % 256, d / 256 % 256, d / 65536 % 256,
        d / 16777216 % 256, 1, 0, if b then 1 else 0] := by
    unfold le16; omega
  have hle : le32 (d % 256) (d / 256 % 256) (d / 65536 % 256) (d / 16777216 % 256) = d := by
    unfold le32; omega
  rw [build_eq d b]
  simp only [enc16, List.append_eq, List.cons_append, List.nil_append]
  rw [parse_goodFrame _ _ _ _ _ _ _ hcrc, hle]

/-- Witness for C1 at the spec's end-to-end scenario
`deviceId = 0x01020304`, `actuatorOn = true`. -/
theorem control_packet_roundtrip_instance :
    (0x01020304 : Nat) < 2 ^ 32 ∧
    parse_packet (build_control_packet 0x01020304 true) =
      (some ⟨0x80, 0x01, 0x01020304, [1],
        bytesHexUpper (build_control_packet 0x01020304 true)⟩, ParseMsg.ok) := by
  refine ⟨by norm_num, ?_⟩
  have h := control_packet_roundtrip 0x01020304 (by norm_num) true
  simpa using h

/-- C2: `calc_crc` is bit-exactly the CRC-16/Modbus algorithm of the spec
(initial register 0xFFFF, XOR each byte into the low 8 bits, 8 rounds of
shift-right with conditional XOR 0xA001, no final XOR), and on the single
byte 0x00 it yields 0x40BF. -/
theorem calc_crc_modbus_exact :
    (∀ data : List Nat, (∀ b ∈ data, b < 256) → calc_crc data = crc16_modbus_spec data) ∧
    calc_crc [0x00] = 0x40BF :=
  ⟨fun data h => crc_spec_eq data h, by decide⟩

/-- Witness for C2 at the concrete input `[0x00]`. -/
theorem calc_crc_modbus_exact_instance :
    (∀ b ∈ [(0 : Nat)], b < 256) ∧ calc_crc [0] = crc16_modbus_spec [0] :=
  ⟨by decide, calc_crc_modbus_exact.1 [0] (by decide)⟩

/-- C3: `decode_sensor_payload` returns `none` for every payload whose length
is not exactly 20, and for every 20-byte payload returns the report with
temperature and humidity the LE IEEE-754 binary32 values of the first two
4-byte groups rounded to one decimal, light the following LE u32, and the
timestamp the trailing LE u64. -/
theorem decode_sensor_payload_cases :
    (∀ p : List Nat, p.length ≠ 20 → decode_sensor_payload p = none) ∧
    (∀ b0 b1 b2 b3 b4 b5 b6 b7 b8 b9 b10 b11 b12 b13 b14 b15 b16 b17 b18 b19 : Nat,
      decode_sensor_payload [b0, b1, b2, b3, b4, b5, b6, b7, b8, b9, b10, b11,
          b12, b13, b14, b15, b16, b17, b18, b19] =
        some ⟨roundF1 (decodeF32 (le32 b0 b1 b2 b3)),
              roundF1 (decodeF32 (le32 b4 b5 b6 b7)),
              le32 b8 b9 b10 b11,
              le64 b12 b13 b14 b15 b16 b17 b18 b19⟩) := by
  constructor
  · intro p hp
    simp [decode_sensor_payload, hp]
  · intro b0 b1 b2 b3 b4 b5 b6 b7 b8 b9 b10 b11 b12 b13 b14 b15 b16 b17 b18 b19
    simp [decode_sensor_payload]

/-- Witness for C3 at the empty payload. -/
theorem decode_sensor_payload_cases_instance :
    ([] : List Nat).length ≠ 20 ∧ decode_sensor_payload [] = none :=
  ⟨by decide, decode_sensor_payload_cases.1 [] (by decide)⟩

/-- C4 counterexample: a successfully decoded frame with the unknown command
code 5 produces no log line at all (and no persistence or display call):
the claim's "logs it as unhandled" is false — the source's `if/elif` has no
`else` branch, so unknown commands are dropped silently. -/
theorem unknown_command_not_logged :
    process_data (fun _ => "") (true, none) true ⟨5, 0, 0, [], ""⟩ =
      ⟨[], [], []⟩ := by
  decide

/-- C4 amended: for every decoded frame whose command is neither heartbeat
(0x01) nor sensor-report (0x10), `process_data` drops the frame silently —
no log line, no persistence-sink call, no display update, and no exception
(the function returns normally with empty effects). -/
theorem unknown_command_silently_ignored (tsToStr : Nat → String)
    (dbResult : Bool × Option String) (hasDisplay : Bool) (data : Packet)
    (h1 : data.cmd ≠ CMD_HEARTBEAT) (h2 : data.cmd ≠ CMD_SENSOR_DATA) :
    process_data tsToStr dbResult hasDisplay data = ⟨[], [], []⟩ := by
  simp [process_data, h1, h2]

/-- Witness for the amended C4 at command code 5. -/
theorem unknown_command_silently_ignored_instance :
    (5 : Nat) ≠ CMD_HEARTBEAT ∧ (5 : Nat) ≠ CMD_SENSOR_DATA ∧
    process_data (fun _ => "x") (false, some "e") false ⟨5, 0, 0, [], ""⟩ =
      ⟨[], [], []⟩ :=
  ⟨by decide, by decide,
    unknown_command_silently_ignored _ _ _ _ (by decide) (by decide)⟩

/-- C5: `broadcast_command` with an empty registry sends zero frames and logs
the warning; with two registered sessions (all sends succeeding) it sends
the identical control-packet bytes to both sessions, in order. -/
theorem broadcast_command_effects :
    (∀ (sendOk : Nat → Bool) (d : Nat) (b : Bool),
      broadcast_command sendOk [] d b = ⟨[.noDevices], []⟩) ∧
    (∀ (s1 s2 d : Nat) (b : Bool), d < 2 ^ 32 →
      broadcast_command (fun _ => true) [s1, s2] d b =
        ⟨[.sent b s1, .sent b s2],
         [(s1, build_control_packet d b), (s2, build_control_packet d b)]⟩) := by
  constructor
  · intro sendOk d b; rfl
  · intro s1 s2 d b _; simp [broadcast_command]

/-- Witness for C5 with two sessions and the spec's device id. -/
theorem broadcast_command_effects_instance :
    (0x01020304 : Nat) < 2 ^ 32 ∧
    broadcast_command (fun _ => true) [] 0x01020304 true = ⟨[.noDevices], []⟩ ∧
    broadcast_command (fun _ => true) [7, 9] 0x01020304 true =
      ⟨[.sent true 7, .sent true 9],
       [(7, build_control_packet 0x01020304 true),
        (9, build_control_packet 0x01020304 true)]⟩ :=
  ⟨by norm_num, broadcast_command_effects.1 (fun _ => true) 0x01020304 true,
    broadcast_command_effects.2 7 9 0x01020304 true (by norm_num)⟩

/-- C6: when the persistence sink reports failure on a successfully decoded
sensor report, `process_data` logs the DB error and continues: it returns
normally, the sink call is recorded, and the display callback is still
invoked with the already-decoded (temperature, humidity, light). -/
theorem process_data_db_failure_continues (tsToStr : Nat → String) (err : String)
    (seq dev : Nat) (raw : String)
    (b0 b1 b2 b3 b4 b5 b6 b7 b8 b9 b10 b11 b12 b13 b14 b15 b16 b17 b18 b19 : Nat) :
    process_data tsToStr (false, some err) true
        ⟨CMD_SENSOR_DATA, seq, dev,
          [b0, b1, b2, b3, b4, b5, b6, b7, b8, b9, b10, b11,
           b12, b13, b14, b15, b16, b17, b18, b19], raw⟩ =
      { logs := [.dbError (some err),
                 .report (roundF1 (decodeF32 (le32 b0 b1 b2 b3)))
                   (roundF1 (decodeF32 (le32 b4 b5 b6 b7))) (le32 b8 b9 b10 b11)
                   (tsToStr (le64 b12 b13 b14 b15 b16 b17 b18 b19))],
        dbCalls := [(pyHex dev, roundF1 (decodeF32 (le32 b0 b1 b2 b3)),
                     roundF1 (decodeF32 (le32 b4 b5 b6 b7)),
                     tsToStr (le64 b12 b13 b14 b15 b16 b17 b18 b19))],
        displayCalls := [(roundF1 (decodeF32 (le32 b0 b1 b2 b3)),
                          roundF1 (decodeF32 (le32 b4 b5 b6 b7)),
                          le32 b8 b9 b10 b11)] } := by
  simp [process_data, decode_sensor_payload, CMD_HEARTBEAT, CMD_SENSOR_DATA]

/-- C7: every input shorter than 13 bytes is rejected with the
"Length too short" result and no frame. -/
theorem parse_packet_too_short (data : List Nat) (h : data.length < 13) :
    parse_packet data = (none, ParseMsg.tooShort) := by
  simp [parse_packet, h]

/-- Witness for C7 at the empty input. -/
theorem parse_packet_too_short_instance :
    ([] : List Nat).length < 13 ∧ parse_packet [] = (none, ParseMsg.tooShort) :=
  ⟨by decide, parse_packet_too_short [] (by decide)⟩

/-- C8 counterexample: a 12-byte input whose first two bytes (LE value 0) do
not match the header constant fails with `tooShort`, not with the
header-mismatch error — the length check runs first, so the claim's
"regardless of the rest of the frame's content" is false for inputs
shorter than 13 bytes. -/
theorem header_mismatch_short_input :
    le16 0 0 ≠ PROTOCOL_HEADER ∧
    parse_packet (List.replicate 12 0) = (none, ParseMsg.tooShort) := by
  constructor
  · decide
  · decide

/-- C8 amended: every input of at least 13 bytes whose first two bytes, read
little-endian, differ from 0xAA55 fails with the header-mismatch error
(carrying the parsed header value), regardless of the rest of the frame. -/
theorem parse_packet_invalid_header (b0 b1 b2 b3 b4 b5 b6 b7 b8 b9 b10 : Nat)
    (rest : List Nat) (hlen : 2 ≤ rest.length)
    (hhead : le16 b0 b1 ≠ PROTOCOL_HEADER) :
    parse_packet (b0 :: b1 :: b2 :: b3 :: b4 :: b5 :: b6 :: b7 :: b8 :: b9 :: b10 :: rest) =
      (none, ParseMsg.invalidHeader (le16 b0 b1)) := by
  have hnot : ¬ ((b0 :: b1 :: b2 :: b3 :: b4 :: b5 :: b6 :: b7 :: b8 :: b9 :: b10 ::
      rest).length < 13) := by
    simp only [List.length_cons]
    omega
  unfold parse_packet
  rw [if_neg hnot]
  simp [unpackHBBBIH, List.take_succ_cons, List.getD, hhead]

/-- Witness for the amended C8 at a 13-byte all-zero input. -/
theorem parse_packet_invalid_header_instance :
    2 ≤ (List.replicate 2 (0 : Nat)).length ∧
    le16 0 0 ≠ PROTOCOL_HEADER ∧
    parse_packet (0 :: 0 :: 0 :: 0 :: 0 :: 0 :: 0 :: 0 :: 0 :: 0 :: 0 ::
        List.replicate 2 0) =
      (none, ParseMsg.invalidHeader (le16 0 0)) :=
  ⟨by decide, by decide,
    parse_packet_invalid_header 0 0 0 0 0 0 0 0 0 0 0 _ (by decide) (by decide)⟩

/-- C9: for every input of at least 13 bytes the fixed-width unpack of the
first 11 bytes cannot fail, so `parse_packet` never returns the
"Struct unpack error" result. -/
theorem parse_packet_no_struct_error (data : List Nat) (h : 13 ≤ data.length) :
    (parse_packet data).2 ≠ ParseMsg.structError := by
  have h13 : ¬ (data.length < 13) := by omega
  have htake : (data.take 11).length = 11 := by
    simp only [List.length_take]
    omega
  unfold parse_packet
  rw [if_neg h13]
  unfold unpackHBBBIH
  rw [if_pos htake]
  dsimp only
  split
  · simp
  · split
    · simp
    · split
      · simp
      · split <;> simp

/-- Witness for C9 at a 13-byte all-zero input. -/
theorem parse_packet_no_struct_error_instance :
    13 ≤ (List.replicate 13 (0 : Nat)).length ∧
    (parse_packet (List.replicate 13 0)).2 ≠ ParseMsg.structError :=
  ⟨by decide, parse_packet_no_struct_error _ (by decide)⟩

/-- C10: for every byte sequence the CRC register stays within 16 bits, so
`calc_crc` returns a value of at most 0xFFFF, and the little-endian 2-byte
field appended by the encoder decodes back to exactly that checksum. -/
theorem calc_crc_fits_two_bytes (data : List Nat) (h : ∀ b ∈ data, b < 256) :
    calc_crc data ≤ 0xFFFF ∧
    unpackH (enc16 (calc_crc data)) = some (calc_crc data) := by
  have hlt := calc_crc_lt data h
  constructor
  · omega
  · simp only [unpackH, enc16, le16, List.getD, List.length_cons, List.length_nil]
    norm_num
    omega

/-- Witness for C10 at the input `[0x12, 0x34]`. -/
theorem calc_crc_fits_two_bytes_instance :
    (∀ b ∈ [(0x12 : Nat), 0x34], b < 256) ∧
    calc_crc [0x12, 0x34] ≤ 0xFFFF ∧
    unpackH (enc16 (calc_crc [0x12, 0x34])) = some (calc_crc [0x12, 0x34]) :=
  ⟨by decide, (calc_crc_fits_two_bytes [0x12, 0x34] (by decide)).1,
    (calc_crc_fits_two_bytes [0x12, 0x34] (by decide)).2⟩

end IotSys
